import Mathlib

/-!
# Tetris application controller (`fw/Core/Hitcon/App/TetrisApp.cc`)

A shallow embedding of the controller: every member function of `TetrisApp`
becomes a pure function from the controller state (and its arguments) to the
new controller state together with the list of calls the function body makes,
in program order.

Collaborators declared outside the translated file are taken as parameters:

* the simulation (`hitcon::tetris::TetrisGame`) is an interface record
  `TetrisGame G` over an arbitrary simulation state `G`;
* the compile-time constants (`FALL_PERIOD`, `PACKET_ATTACK`, ...) are the
  fields of `Consts`.

The call list records the calls written in the controller's own function
bodies and, where the simulation calls back into the translated file through
the attack callback registered by `OnEntry`, the calls that
`SendAttackEnemyPacket` makes for it, at the place where the simulation
returns.
-/

namespace hitcon
namespace app
namespace tetris

/-! ## Machine integers -/

/-- Value of an integer expression after conversion to the 32-bit C++ type
`unsigned`: reduction modulo `2^32`. -/
def toUnsigned (x : Int) : Nat := (x % 4294967296).toNat

/-- A byte (`uint8_t`). -/
abbrev uint8_t := Fin 256

/-- Conversion `(uint8_t)n` of an `int`: reduction modulo `256`. -/
def toUint8 (n : Int) : uint8_t := ⟨(n % 256).toNat, by omega⟩

/-- Function `inline unsigned max(unsigned a, unsigned b) { return a > b ? a : b; }`
(line 175). -/
def max (a b : Nat) : Nat := if a > b then a else b

/-- The right operand of the comparison in the `GAME_STATE_PLAYING` case of
`periodic_task_callback` (lines 200-203):
`max(MIN_FALL_PERIOD, FALL_PERIOD - game_get_cleared_lines() * SPEED_UP_PER_CLEAR_LINE)`.
Both arguments of `max` are converted to `unsigned` at the call; since
reduction modulo `2^32` commutes with `-` and `*`, the value is the same
whether the three constants and the line count are declared `int` or
`unsigned`. -/
def fall_threshold (FALL_PERIOD MIN_FALL_PERIOD SPEED_UP_PER_CLEAR_LINE cleared_lines : Int) : Nat :=
  max (toUnsigned MIN_FALL_PERIOD)
      (toUnsigned (FALL_PERIOD - cleared_lines * SPEED_UP_PER_CLEAR_LINE))

/-- The left operand of the same comparison: `now - last_fall_time` on
`unsigned` operands. -/
def elapsed (now last_fall_time : Nat) : Nat :=
  toUnsigned ((now : Int) - (last_fall_time : Int))


/-! ## Data model -/

/-- States of the simulation, as named in the two `switch` statements on
`game.game_get_state()`. -/
inductive GameState where
  | GAME_STATE_WAITING
  | GAME_STATE_GAME_OVER
  | GAME_STATE_PLAYING
  deriving DecidableEq, Repr

/-- Directions handed to `game_on_input`. -/
inductive Direction where
  | DIRECTION_UP
  | DIRECTION_DOWN
  | DIRECTION_LEFT
  | DIRECTION_RIGHT
  | DIRECTION_FAST_DOWN
  deriving DecidableEq, Repr

/-- Button codes (`button_t`).  The seven codes named in `OnButton` are
constructors; every other code of the enumeration is `other code`. -/
inductive button_t where
  | BUTTON_OK
  | BUTTON_BACK
  | BUTTON_LONG_BACK
  | BUTTON_LEFT
  | BUTTON_RIGHT
  | BUTTON_DOWN
  | BUTTON_UP
  | other (code : Nat)
  deriving DecidableEq, Repr

/-- Logical destination of a transmission. -/
inductive RecvId where
  | TETRIS_RECV_ID
  deriving DecidableEq, Repr

/-- Tag of a score record (`GameScoreType`). -/
inductive GameScoreType where
  | GAME_TETRIS
  deriving DecidableEq, Repr

/-- Applications named by the controller as the target of a focus call. -/
inductive AppRef where
  | tetris_app
  | show_score_app
  deriving DecidableEq, Repr

/-- Inbound packet (`PacketCallbackArg`): the byte buffer and the length
field, which the code reads independently of each other. -/
structure PacketCallbackArg where
  data : List uint8_t
  len : Nat
  deriving DecidableEq, Repr

/-- Read `packet->data[i]`. -/
def PacketCallbackArg.dataAt (packet : PacketCallbackArg) (i : Nat) : uint8_t :=
  packet.data.getD i 0

/-- Compile-time constants declared outside the translated file.  The four
opcodes are byte values: they are stored in `uint8_t` objects and compared
with `packet->data[0]`. -/
structure Consts where
  FALL_PERIOD : Int
  MIN_FALL_PERIOD : Int
  SPEED_UP_PER_CLEAR_LINE : Int
  DISPLAY_WIDTH : Nat
  PACKET_GAME_START : uint8_t
  PACKET_ATTACK : uint8_t
  PACKET_GAME_OVER : uint8_t
  PACKET_ABORT_GAME : uint8_t
  SINGLEPLAYER : Nat
  MULTIPLAYER : Nat
  deriving DecidableEq, Repr

/-- The four opcodes are the labels of one `switch` and therefore pairwise
different. -/
def Consts.distinctOpcodes (k : Consts) : Prop :=
  k.PACKET_GAME_START ≠ k.PACKET_ATTACK ∧ k.PACKET_GAME_START ≠ k.PACKET_GAME_OVER ∧
  k.PACKET_GAME_START ≠ k.PACKET_ABORT_GAME ∧ k.PACKET_ATTACK ≠ k.PACKET_GAME_OVER ∧
  k.PACKET_ATTACK ≠ k.PACKET_ABORT_GAME ∧ k.PACKET_GAME_OVER ≠ k.PACKET_ABORT_GAME

instance (k : Consts) : Decidable k.distinctOpcodes := by
  unfold Consts.distinctOpcodes; infer_instance

/-- One call made by a controller function, with its arguments. -/
inductive Call where
  | TetrisGame_construct
  | display_set_mode_scroll_text (text : String)
  | game_register_attack_enemy_callback
  | EnablePeriodic
  | DisablePeriodic
  | SetOnPacketArrive (id : RecvId)
  | QueueDataForTx (data : List uint8_t) (len : Nat) (id : RecvId)
  | SendPartialData (budget : Nat)
  | GetTime
  | game_get_state
  | game_get_score
  | game_get_cleared_lines
  | game_start_playing
  | game_enemy_attack (n_lines : Int)
  | game_force_over
  | game_on_input (d : Direction)
  | game_fall_down_tetromino
  | game_draw_to_display (width : Nat)
  | display_set_mode_fixed_packed (buf : List Nat)
  | SetScore (score : Int)
  | MarkScore (type : GameScoreType) (score : Int)
  | change_app (target : AppRef)
  | BackToMenu (app : AppRef)
  deriving DecidableEq, Repr

/-- Interface of the simulation `hitcon::tetris::TetrisGame` over a state
type `G`: the constructor, the three queries and the mutating entry points
the controller calls.  `game_draw_to_display` returns the filled buffer
next to the simulation state.

The two entry points that can bring the falling piece to rest,
`game_on_input` and `game_fall_down_tetromino`, return next to the new state
the line counts for which the simulation reports an attack on the enemy
during the call, in order: one call of the attack callback each, when a
callback is registered.  The other entry points (`game_start_playing`,
`game_enemy_attack`, `game_force_over`) do not move the piece and report no
attack. -/
structure TetrisGame (G : Type) where
  construct : G
  game_register_attack_enemy_callback : G → G
  game_get_state : G → GameState
  game_get_score : G → Int
  game_get_cleared_lines : G → Int
  game_start_playing : G → G
  game_enemy_attack : G → Int → G
  game_force_over : G → G
  game_on_input : G → Direction → G × List Int
  game_fall_down_tetromino : G → G × List Int
  game_draw_to_display : G → G × List Nat

/-- Data members of `TetrisApp` that the member functions read or write.
`attack_enemy_callback` is the callback slot of the object `game`: whether
`SendAttackEnemyPacket` is registered with it.  It is kept next to `game`
because the simulation state `G` is abstract. -/
structure TetrisApp (G : Type) where
  game : G
  multiplayer : Bool
  last_fall_time : Nat
  attack_enemy_callback : Bool
  deriving DecidableEq, Repr

/-! ## Member functions -/

/-- Function `SendAttackEnemyPacket` (lines 41-44). -/
def SendAttackEnemyPacket (k : Consts) (n_lines : Int) : List Call :=
  [Call.QueueDataForTx [k.PACKET_ATTACK, toUint8 n_lines] 2 RecvId.TETRIS_RECV_ID]

/-- Modelled from the spec: the simulation, which is not in the translated
file, reports the lines a player cleared as an attack on the peer (section
4.3, opcode ATTACK) by calling the callback registered with
`game_register_attack_enemy_callback`, once per report, and calls nothing
when no callback is registered.  The only function ever registered is
`SendAttackEnemyPacket` (line 51), so the calls are those of
`SendAttackEnemyPacket(n)` for each reported line count `n`. -/
def attack_callback_calls (k : Consts) (registered : Bool) : List Int → List Call
  | [] => []
  | n :: ns =>
    if registered then SendAttackEnemyPacket k n ++ attack_callback_calls k registered ns
    else []

/-- Function `TetrisApp::OnEntry` (lines 46-58).  The fresh simulation has no
callback; one is registered in multiplayer mode only, so afterwards the slot
holds `multiplayer`. -/
def OnEntry {G : Type} (sim : TetrisGame G) (app : TetrisApp G) : TetrisApp G × List Call :=
  let g0 := sim.construct
  let reg : G × List Call :=
    if app.multiplayer then
      (sim.game_register_attack_enemy_callback g0, [Call.game_register_attack_enemy_callback])
    else (g0, [])
  ({ app with game := reg.1, attack_enemy_callback := app.multiplayer },
   [Call.TetrisGame_construct, Call.display_set_mode_scroll_text "Ready?"] ++ reg.2 ++
   [Call.EnablePeriodic, Call.SetOnPacketArrive RecvId.TETRIS_RECV_ID])

/-- Function `TetrisApp::SetPlayerCount` (lines 64-66). -/
def SetPlayerCount {G : Type} (k : Consts) (app : TetrisApp G) (playerCount : Nat) : TetrisApp G :=
  { app with multiplayer := decide (playerCount = k.MULTIPLAYER) }

/-- Function `SetSingleplayer` (line 60). -/
def SetSingleplayer {G : Type} (k : Consts) (app : TetrisApp G) : TetrisApp G :=
  SetPlayerCount k app k.SINGLEPLAYER

/-- Function `SetMultiplayer` (line 62). -/
def SetMultiplayer {G : Type} (k : Consts) (app : TetrisApp G) : TetrisApp G :=
  SetPlayerCount k app k.MULTIPLAYER

/-- Function `TetrisApp::OnExit` (lines 68-70). -/
def OnExit {G : Type} (app : TetrisApp G) : TetrisApp G × List Call :=
  (app, [Call.DisablePeriodic])

/-- Function `TetrisApp::RecvAttackPacket` (lines 72-76). -/
def RecvAttackPacket {G : Type} (sim : TetrisGame G) (app : TetrisApp G)
    (packet : PacketCallbackArg) : TetrisApp G × List Call :=
  if packet.len ≠ 2 then (app, [])
  else
    let n_lines : Int := ((packet.dataAt 1).val : Int)
    ({ app with game := sim.game_enemy_attack app.game n_lines },
     [Call.game_enemy_attack n_lines])

/-- Function `TetrisApp::OnXboardRecv` (lines 78-101): the `switch` on
`packet->data[0]`, without a `default` label. -/
def OnXboardRecv {G : Type} (k : Consts) (sim : TetrisGame G) (app : TetrisApp G)
    (packet : PacketCallbackArg) : TetrisApp G × List Call :=
  let op := packet.dataAt 0
  if op = k.PACKET_GAME_START then
    ({ app with game := sim.game_start_playing app.game }, [Call.game_start_playing])
  else if op = k.PACKET_ATTACK then
    RecvAttackPacket sim app packet
  else if op = k.PACKET_GAME_OVER then
    let g1 := sim.game_force_over app.game
    ({ app with game := g1 },
     [Call.game_force_over,
      Call.game_get_score, Call.SetScore (sim.game_get_score g1),
      Call.game_get_score, Call.MarkScore GameScoreType.GAME_TETRIS (sim.game_get_score g1),
      Call.change_app AppRef.show_score_app])
  else if op = k.PACKET_ABORT_GAME then
    (app, [Call.BackToMenu AppRef.tetris_app])
  else (app, [])

/-- The block shared by the three `BUTTON_BACK` / `BUTTON_LONG_BACK` labels
and by `BUTTON_OK` in the waiting state: `if (multiplayer)` enqueue the one
byte `code` for `TETRIS_RECV_ID`. -/
def queueIfMultiplayer (multiplayer : Bool) (code : uint8_t) : List Call :=
  if multiplayer then [Call.QueueDataForTx [code] 1 RecvId.TETRIS_RECV_ID] else []

/-- Function `TetrisApp::OnButton` (lines 103-173). -/
def OnButton {G : Type} (k : Consts) (sim : TetrisGame G) (app : TetrisApp G)
    (button : button_t) : TetrisApp G × List Call :=
  match sim.game_get_state app.game with
  | GameState.GAME_STATE_WAITING =>
    match button with
    | button_t.BUTTON_OK =>
      ({ app with game := sim.game_start_playing app.game },
       [Call.game_get_state] ++ queueIfMultiplayer app.multiplayer k.PACKET_GAME_START ++
       [Call.game_start_playing])
    | button_t.BUTTON_BACK | button_t.BUTTON_LONG_BACK =>
      (app,
       [Call.game_get_state] ++ queueIfMultiplayer app.multiplayer k.PACKET_ABORT_GAME ++
       [Call.BackToMenu AppRef.tetris_app])
    | _ => (app, [Call.game_get_state])
  | GameState.GAME_STATE_GAME_OVER => (app, [Call.game_get_state])
  | GameState.GAME_STATE_PLAYING =>
    match button with
    | button_t.BUTTON_LEFT =>
      ({ app with game := (sim.game_on_input app.game Direction.DIRECTION_UP).1 },
       [Call.game_get_state, Call.game_on_input Direction.DIRECTION_UP] ++
       attack_callback_calls k app.attack_enemy_callback
         (sim.game_on_input app.game Direction.DIRECTION_UP).2)
    | button_t.BUTTON_RIGHT =>
      ({ app with game := (sim.game_on_input app.game Direction.DIRECTION_DOWN).1 },
       [Call.game_get_state, Call.game_on_input Direction.DIRECTION_DOWN] ++
       attack_callback_calls k app.attack_enemy_callback
         (sim.game_on_input app.game Direction.DIRECTION_DOWN).2)
    | button_t.BUTTON_DOWN =>
      ({ app with game := (sim.game_on_input app.game Direction.DIRECTION_LEFT).1 },
       [Call.game_get_state, Call.game_on_input Direction.DIRECTION_LEFT] ++
       attack_callback_calls k app.attack_enemy_callback
         (sim.game_on_input app.game Direction.DIRECTION_LEFT).2)
    | button_t.BUTTON_UP =>
      ({ app with game := (sim.game_on_input app.game Direction.DIRECTION_RIGHT).1 },
       [Call.game_get_state, Call.game_on_input Direction.DIRECTION_RIGHT] ++
       attack_callback_calls k app.attack_enemy_callback
         (sim.game_on_input app.game Direction.DIRECTION_RIGHT).2)
    | button_t.BUTTON_OK =>
      ({ app with game := (sim.game_on_input app.game Direction.DIRECTION_FAST_DOWN).1 },
       [Call.game_get_state, Call.game_on_input Direction.DIRECTION_FAST_DOWN] ++
       attack_callback_calls k app.attack_enemy_callback
         (sim.game_on_input app.game Direction.DIRECTION_FAST_DOWN).2)
    | button_t.BUTTON_BACK | button_t.BUTTON_LONG_BACK =>
      (app,
       [Call.game_get_state] ++ queueIfMultiplayer app.multiplayer k.PACKET_ABORT_GAME ++
       [Call.BackToMenu AppRef.tetris_app])
    | _ => (app, [Call.game_get_state])

/-- Function `TetrisApp::periodic_task_callback` (lines 177-215).  `time` is the value
returned by `SysTimer::GetTime()`, read in the playing state only. -/
def periodic_task_callback {G : Type} (k : Consts) (sim : TetrisGame G) (app : TetrisApp G)
    (time : Nat) : TetrisApp G × List Call :=
  match sim.game_get_state app.game with
  | GameState.GAME_STATE_WAITING => (app, [Call.game_get_state])
  | GameState.GAME_STATE_GAME_OVER =>
    (app,
     [Call.game_get_state] ++
     (if app.multiplayer then
        [Call.QueueDataForTx [k.PACKET_GAME_OVER] 1 RecvId.TETRIS_RECV_ID,
         Call.SendPartialData 50]
      else []) ++
     [Call.game_get_score, Call.SetScore (sim.game_get_score app.game),
      Call.game_get_score, Call.MarkScore GameScoreType.GAME_TETRIS (sim.game_get_score app.game),
      Call.change_app AppRef.show_score_app])
  | GameState.GAME_STATE_PLAYING =>
    let now := toUnsigned (time : Int)
    let fell : G × Nat × List Call :=
      if elapsed now app.last_fall_time ≥
          fall_threshold k.FALL_PERIOD k.MIN_FALL_PERIOD k.SPEED_UP_PER_CLEAR_LINE
            (sim.game_get_cleared_lines app.game) then
        ((sim.game_fall_down_tetromino app.game).1, now,
         [Call.game_fall_down_tetromino] ++
         attack_callback_calls k app.attack_enemy_callback
           (sim.game_fall_down_tetromino app.game).2)
      else (app.game, app.last_fall_time, [])
    let drawn := sim.game_draw_to_display fell.1
    ({ app with game := drawn.1, last_fall_time := fell.2.1 },
     [Call.game_get_state, Call.GetTime, Call.game_get_cleared_lines] ++ fell.2.2 ++
     [Call.game_draw_to_display k.DISPLAY_WIDTH, Call.display_set_mode_fixed_packed drawn.2])

/-! ## Classes of calls -/

/-- Calls that hand bytes to the transport or ask it to flush. -/
def Call.isTransmit : Call → Bool
  | Call.QueueDataForTx _ _ _ => true
  | Call.SendPartialData _ => true
  | _ => false

/-- Calls that ask the shell to move the input focus. -/
def Call.isFocusChange : Call → Bool
  | Call.change_app _ => true
  | Call.BackToMenu _ => true
  | _ => false

/-- Calls into the mutating entry points of the simulation. -/
def Call.isGameMutation : Call → Bool
  | Call.game_start_playing => true
  | Call.game_enemy_attack _ => true
  | Call.game_force_over => true
  | Call.game_on_input _ => true
  | Call.game_fall_down_tetromino => true
  | _ => false

/-- Calls that record a score in the ledger. -/
def Call.isMarkScore : Call → Bool
  | Call.MarkScore _ _ => true
  | _ => false

/-! ## A concrete instance

Sample values for the parameters, used to evaluate the functions on concrete
inputs. -/

/-- Sample constants. -/
def sampleConsts : Consts :=
  { FALL_PERIOD := 1000, MIN_FALL_PERIOD := 200, SPEED_UP_PER_CLEAR_LINE := 20,
    DISPLAY_WIDTH := 8,
    PACKET_GAME_START := 1, PACKET_ATTACK := 2, PACKET_GAME_OVER := 3, PACKET_ABORT_GAME := 4,
    SINGLEPLAYER := 1, MULTIPLAYER := 2 }

/-- State of a bookkeeping simulation: it records what it was asked to do
instead of playing.  `full_rows` is the number of rows that are complete once
the falling piece comes to rest. -/
structure LedgerGame where
  state : GameState
  score : Int
  cleared_lines : Int
  garbage : Int
  callback : Bool
  inputs : List Direction
  rows_fallen : Nat
  full_rows : Int
  deriving DecidableEq, Repr

/-- Modelled from the spec: the piece of the bookkeeping simulation comes to
rest; the complete rows are cleared and, when there are any, reported as one
attack on the enemy (section 4.3: "peer cleared N lines, attack"). -/
def LedgerGame.rest (g : LedgerGame) : LedgerGame × List Int :=
  if 0 < g.full_rows then
    ({ g with cleared_lines := g.cleared_lines + g.full_rows, full_rows := 0 }, [g.full_rows])
  else (g, [])

/-- Modelled from the spec: the bookkeeping simulation as an instance of the
interface.  The piece comes to rest when it falls one row and when the
accelerated drop `DIRECTION_FAST_DOWN` is put in; the other inputs only move
it. -/
def ledgerGame : TetrisGame LedgerGame :=
  { construct :=
      { state := GameState.GAME_STATE_WAITING, score := 0, cleared_lines := 0, garbage := 0,
        callback := false, inputs := [], rows_fallen := 0, full_rows := 0 }
    game_register_attack_enemy_callback := fun g => { g with callback := true }
    game_get_state := fun g => g.state
    game_get_score := fun g => g.score
    game_get_cleared_lines := fun g => g.cleared_lines
    game_start_playing := fun g => { g with state := GameState.GAME_STATE_PLAYING }
    game_enemy_attack := fun g n => { g with garbage := g.garbage + n }
    game_force_over := fun g => { g with state := GameState.GAME_STATE_GAME_OVER }
    game_on_input := fun g d =>
      if d = Direction.DIRECTION_FAST_DOWN then
        LedgerGame.rest { g with inputs := g.inputs ++ [d] }
      else ({ g with inputs := g.inputs ++ [d] }, [])
    game_fall_down_tetromino := fun g =>
      LedgerGame.rest { g with rows_fallen := g.rows_fallen + 1 }
    game_draw_to_display := fun g => (g, List.replicate 8 g.rows_fallen) }

/-- A bookkeeping simulation in the given state with the given line count. -/
def ledgerIn (st : GameState) (score cleared : Int) : LedgerGame :=
  { state := st, score := score, cleared_lines := cleared, garbage := 0,
    callback := false, inputs := [], rows_fallen := 0, full_rows := 0 }

/-- Number of bytes one call hands to `QueueDataForTx`. -/
def Call.enqueuedBytes : Call → Nat
  | Call.QueueDataForTx _ len _ => len
  | _ => 0

/-- Number of bytes a list of calls hands to `QueueDataForTx`. -/
def enqueuedBytes (calls : List Call) : Nat :=
  (calls.map Call.enqueuedBytes).sum

/-- The callbacks through which the shell, the scheduler and the transport
reach the controller. -/
inductive Event where
  | OnEntry
  | OnExit
  | OnButton (button : button_t)
  | OnXboardRecv (packet : PacketCallbackArg)
  | periodic_task_callback (time : Nat)
  deriving DecidableEq, Repr

/-- Run the member function an event stands for. -/
def dispatch {G : Type} (k : Consts) (sim : TetrisGame G) (app : TetrisApp G) :
    Event → TetrisApp G × List Call
  | Event.OnEntry => OnEntry sim app
  | Event.OnExit => OnExit app
  | Event.OnButton button => OnButton k sim app button
  | Event.OnXboardRecv packet => OnXboardRecv k sim app packet
  | Event.periodic_task_callback time => periodic_task_callback k sim app time

/-- Modelled from the spec: the scheduler and the shell, which are not in the
translated file, deliver the callbacks one at a time on a single thread
(section 5), so a run is the events dispatched in order, each on the state the
previous one left; the call lists are concatenated. -/
def run {G : Type} (k : Consts) (sim : TetrisGame G) (app : TetrisApp G) :
    List Event → TetrisApp G × List Call
  | [] => (app, [])
  | e :: es =>
    ((run k sim (dispatch k sim app e).1 es).1,
     (dispatch k sim app e).2 ++ (run k sim (dispatch k sim app e).1 es).2)

/-- Modelled from the spec: the transport, which is not in the translated
file, delivers the bytes handed to `QueueDataForTx` to the paired peer as one
packet with the same bytes and the same length (section 6, transport
contract).  Other calls deliver nothing. -/
def Call.delivered : Call → Option PacketCallbackArg
  | Call.QueueDataForTx data len _ => some ⟨data, len⟩
  | _ => none

/-! ## The fall threshold -/

theorem toUnsigned_of_range (x : Int) (h0 : 0 ≤ x) (h1 : x < 4294967296) :
    (toUnsigned x : Int) = x := by
  unfold toUnsigned
  omega

theorem toUnsigned_of_neg (x : Int) (h0 : x < 0) (h1 : -4294967296 ≤ x) :
    (toUnsigned x : Int) = x + 4294967296 := by
  unfold toUnsigned
  omega

theorem max_eq_max (a b : Nat) : max a b = Max.max a b := by
  unfold max
  split <;> omega

/-- While the subtraction does not go below zero, the threshold the code
computes is the integer maximum. -/
theorem fall_threshold_eq_of_no_underflow (F M S c : Int) (hM0 : 0 ≤ M) (hM1 : M < 4294967296)
    (h0 : 0 ≤ F - c * S) (h1 : F - c * S < 4294967296) :
    (fall_threshold F M S c : Int) = Max.max M (F - c * S) := by
  have hm := toUnsigned_of_range M hM0 hM1
  have hx := toUnsigned_of_range (F - c * S) h0 h1
  rw [fall_threshold, max_eq_max]
  omega

/-- Once the subtraction goes below zero, the threshold the code computes
is the wrapped difference, which differs from the integer maximum. -/
theorem fall_threshold_ne_of_underflow (F M S c : Int) (hM0 : 0 ≤ M)
    (hneg : F - c * S < 0) (hlow : M - 4294967296 < F - c * S) :
    (fall_threshold F M S c : Int) = F - c * S + 4294967296 ∧
    (fall_threshold F M S c : Int) ≠ Max.max M (F - c * S) := by
  have hm := toUnsigned_of_range M hM0 (by omega)
  have hx := toUnsigned_of_neg (F - c * S) hneg (by omega)
  rw [fall_threshold, max_eq_max]
  omega

/-- C1: at `FALL_PERIOD = 1000`, `MIN_FALL_PERIOD = 200`,
`SPEED_UP_PER_CLEAR_LINE = 20` and 51 cleared lines the threshold the code
compares against is `4294967276` (the difference `-20` wrapped to 32 bits),
while the maximum over the integers is `200`. -/
theorem fall_threshold_at_51 :
    fall_threshold 1000 200 20 51 = 4294967276 ∧
    Max.max (200 : Int) (1000 - 51 * 20) = 200 ∧
    (fall_threshold 1000 200 20 51 : Int) ≠ Max.max (200 : Int) (1000 - 51 * 20) := by
  decide

/-- C2: with the same constants the threshold for 50 cleared lines is `200`
and the threshold for 51 cleared lines is `4294967276`: it went up. -/
theorem fall_threshold_rises_at_51 :
    (50 : Int) ≤ 51 ∧ fall_threshold 1000 200 20 50 = 200 ∧
    fall_threshold 1000 200 20 51 = 4294967276 ∧
    ¬ (fall_threshold 1000 200 20 51 ≤ fall_threshold 1000 200 20 50) := by
  decide

/-- While the subtraction does not go below zero for the larger count, the
threshold does not increase with the cleared-line count. -/
theorem fall_threshold_antitone_of_no_underflow (F M S c1 c2 : Int) (hS : 0 ≤ S)
    (hM0 : 0 ≤ M) (hM1 : M < 4294967296) (hc : c1 ≤ c2)
    (h0 : 0 ≤ F - c2 * S) (h1 : F - c1 * S < 4294967296) :
    fall_threshold F M S c2 ≤ fall_threshold F M S c1 := by
  have hmul : c1 * S ≤ c2 * S := Int.mul_le_mul_of_nonneg_right hc hS
  have e1 := fall_threshold_eq_of_no_underflow F M S c1 hM0 hM1 (by omega) h1
  have e2 := fall_threshold_eq_of_no_underflow F M S c2 hM0 hM1 h0 (by omega)
  have : (fall_threshold F M S c2 : Int) ≤ (fall_threshold F M S c1 : Int) := by
    rw [e1, e2]; omega
  exact_mod_cast this

/-- C3: for every cleared-line count the threshold computed by the code is at
least `MIN_FALL_PERIOD` (a 32-bit unsigned value). -/
theorem fall_threshold_ge_min (F M S c : Int) (hM0 : 0 ≤ M) (hM1 : M < 4294967296) :
    M ≤ (fall_threshold F M S c : Int) := by
  have hm := toUnsigned_of_range M hM0 hM1
  rw [fall_threshold, max_eq_max]
  omega

/-- C3 at a concrete input: 51 cleared lines, where the subtraction wraps. -/
theorem fall_threshold_ge_min_witness :
    (0 : Int) ≤ 200 ∧ (200 : Int) < 4294967296 ∧
    (200 : Int) ≤ (fall_threshold 1000 200 20 51 : Int) :=
  ⟨by decide, by decide, fall_threshold_ge_min 1000 200 20 51 (by decide) (by decide)⟩

/-! ## Calls made through the attack callback -/

theorem attack_callback_calls_false (k : Consts) (ns : List Int) :
    attack_callback_calls k false ns = [] := by
  cases ns <;> simp [attack_callback_calls]

theorem attack_callback_calls_true (k : Consts) (ns : List Int) :
    attack_callback_calls k true ns =
      ns.map (fun n => Call.QueueDataForTx [k.PACKET_ATTACK, toUint8 n] 2
        RecvId.TETRIS_RECV_ID) := by
  induction ns with
  | nil => rfl
  | cons n ns ih => simp [attack_callback_calls, SendAttackEnemyPacket, ih]

/-- Every call made through the attack callback is the enqueue of one 2-byte
attack packet for `TETRIS_RECV_ID`, and there is none without a registered
callback. -/
theorem mem_attack_callback_calls (k : Consts) (registered : Bool) (ns : List Int) (c : Call)
    (h : c ∈ attack_callback_calls k registered ns) :
    registered = true ∧
    ∃ n ∈ ns, c = Call.QueueDataForTx [k.PACKET_ATTACK, toUint8 n] 2 RecvId.TETRIS_RECV_ID := by
  cases registered with
  | false => simp [attack_callback_calls_false] at h
  | true =>
    rw [attack_callback_calls_true, List.mem_map] at h
    obtain ⟨n, hn, rfl⟩ := h
    exact ⟨rfl, n, hn, rfl⟩

theorem attack_callback_calls_filter_isTransmit (k : Consts) (registered : Bool)
    (ns : List Int) :
    (attack_callback_calls k registered ns).filter Call.isTransmit =
      attack_callback_calls k registered ns := by
  rw [List.filter_eq_self]
  intro c hc
  obtain ⟨-, n, -, rfl⟩ := mem_attack_callback_calls k registered ns c hc
  rfl

/-- C6: for every payload byte `N`, every controller state and whatever
follows the first two bytes in the buffer, `OnXboardRecv` on a packet of
length 2 that starts `PACKET_ATTACK, N` makes exactly one call,
`game_enemy_attack(N)`, and replaces the simulation by its result. -/
theorem OnXboardRecv_attack {G : Type} (k : Consts) (sim : TetrisGame G) (app : TetrisApp G)
    (N : uint8_t) (rest : List uint8_t) (hd : k.PACKET_GAME_START ≠ k.PACKET_ATTACK) :
    OnXboardRecv k sim app ⟨k.PACKET_ATTACK :: N :: rest, 2⟩ =
      ({ app with game := sim.game_enemy_attack app.game (N.val : Int) },
       [Call.game_enemy_attack (N.val : Int)]) := by
  simp [OnXboardRecv, RecvAttackPacket, PacketCallbackArg.dataAt, Ne.symm hd]

/-- C6 at a concrete input: payload byte 3 in the playing state. -/
theorem OnXboardRecv_attack_witness :
    sampleConsts.PACKET_GAME_START ≠ sampleConsts.PACKET_ATTACK ∧
    OnXboardRecv sampleConsts ledgerGame
        ⟨ledgerIn GameState.GAME_STATE_PLAYING 0 0, true, 0, true⟩ ⟨[2, 3], 2⟩ =
      ({ game := ledgerGame.game_enemy_attack (ledgerIn GameState.GAME_STATE_PLAYING 0 0) 3,
         multiplayer := true, last_fall_time := 0, attack_enemy_callback := true },
       [Call.game_enemy_attack 3]) :=
  ⟨by decide,
   OnXboardRecv_attack sampleConsts ledgerGame
     ⟨ledgerIn GameState.GAME_STATE_PLAYING 0 0, true, 0, true⟩ 3 [] (by decide)⟩

/-- C7: a packet whose first byte is `PACKET_ATTACK` and whose length field
is not 2 leaves the controller (simulation, `multiplayer`,
`last_fall_time`) as it was and makes no call. -/
theorem OnXboardRecv_attack_bad_length {G : Type} (k : Consts) (sim : TetrisGame G)
    (app : TetrisApp G) (packet : PacketCallbackArg)
    (hd : k.PACKET_GAME_START ≠ k.PACKET_ATTACK)
    (hop : packet.dataAt 0 = k.PACKET_ATTACK) (hlen : packet.len ≠ 2) :
    OnXboardRecv k sim app packet = (app, []) := by
  simp [OnXboardRecv, RecvAttackPacket, hop, hlen, Ne.symm hd]

/-- C7 at a concrete input: an attack packet of length 3. -/
theorem OnXboardRecv_attack_bad_length_witness :
    sampleConsts.PACKET_GAME_START ≠ sampleConsts.PACKET_ATTACK ∧
    PacketCallbackArg.dataAt ⟨[2, 3, 9], 3⟩ 0 = sampleConsts.PACKET_ATTACK ∧
    OnXboardRecv sampleConsts ledgerGame
        ⟨ledgerIn GameState.GAME_STATE_PLAYING 0 0, true, 7, true⟩ ⟨[2, 3, 9], 3⟩ =
      (⟨ledgerIn GameState.GAME_STATE_PLAYING 0 0, true, 7, true⟩, []) :=
  ⟨by decide, by decide,
   OnXboardRecv_attack_bad_length sampleConsts ledgerGame
     ⟨ledgerIn GameState.GAME_STATE_PLAYING 0 0, true, 7, true⟩ ⟨[2, 3, 9], 3⟩
     (by decide) (by decide) (by decide)⟩

/-! ## Starting, ending and leaving a game -/

/-- C8: in the waiting state `OnButton(BUTTON_OK)` in multiplayer mode makes
the state query, one enqueue of the single byte `PACKET_GAME_START` for
`TETRIS_RECV_ID`, and then `game_start_playing`; in singleplayer mode it
makes the state query and `game_start_playing` only.  In both modes the
simulation becomes the result of `game_start_playing`. -/
theorem OnButton_waiting_ok {G : Type} (k : Consts) (sim : TetrisGame G) (game : G)
    (last : Nat) (cb : Bool) (hs : sim.game_get_state game = GameState.GAME_STATE_WAITING) :
    OnButton k sim ⟨game, true, last, cb⟩ button_t.BUTTON_OK =
      (⟨sim.game_start_playing game, true, last, cb⟩,
       [Call.game_get_state,
        Call.QueueDataForTx [k.PACKET_GAME_START] 1 RecvId.TETRIS_RECV_ID,
        Call.game_start_playing]) ∧
    OnButton k sim ⟨game, false, last, cb⟩ button_t.BUTTON_OK =
      (⟨sim.game_start_playing game, false, last, cb⟩,
       [Call.game_get_state, Call.game_start_playing]) := by
  unfold OnButton
  simp [hs, queueIfMultiplayer]

/-- C8 at a concrete input: a fresh simulation, multiplayer. -/
theorem OnButton_waiting_ok_witness :
    ledgerGame.game_get_state ledgerGame.construct = GameState.GAME_STATE_WAITING ∧
    (OnButton sampleConsts ledgerGame ⟨ledgerGame.construct, true, 0, true⟩ button_t.BUTTON_OK).2 =
      [Call.game_get_state, Call.QueueDataForTx [1] 1 RecvId.TETRIS_RECV_ID,
       Call.game_start_playing] :=
  ⟨by decide,
   congrArg Prod.snd
     (OnButton_waiting_ok sampleConsts ledgerGame ledgerGame.construct 0 true (by decide)).1⟩

/-- C9: in the game-over state one run of the periodic task in multiplayer
mode makes, in this order: the state query, one enqueue of the single byte
`PACKET_GAME_OVER`, `SendPartialData(50)`, `SetScore`, `MarkScore(GAME_TETRIS,
score)` and `change_app(show_score_app)`, each of the last three with the
score read before it; in singleplayer mode the same without the enqueue and
the flush.  The controller state is not changed. -/
theorem periodic_game_over {G : Type} (k : Consts) (sim : TetrisGame G) (game : G)
    (last time : Nat) (cb : Bool) (hs : sim.game_get_state game = GameState.GAME_STATE_GAME_OVER) :
    periodic_task_callback k sim ⟨game, true, last, cb⟩ time =
      (⟨game, true, last, cb⟩,
       [Call.game_get_state,
        Call.QueueDataForTx [k.PACKET_GAME_OVER] 1 RecvId.TETRIS_RECV_ID,
        Call.SendPartialData 50,
        Call.game_get_score, Call.SetScore (sim.game_get_score game),
        Call.game_get_score, Call.MarkScore GameScoreType.GAME_TETRIS (sim.game_get_score game),
        Call.change_app AppRef.show_score_app]) ∧
    (periodic_task_callback k sim ⟨game, true, last, cb⟩ time).2.filter
        (fun c => c.isTransmit || c.isMarkScore || c.isFocusChange) =
      [Call.QueueDataForTx [k.PACKET_GAME_OVER] 1 RecvId.TETRIS_RECV_ID,
       Call.SendPartialData 50,
       Call.MarkScore GameScoreType.GAME_TETRIS (sim.game_get_score game),
       Call.change_app AppRef.show_score_app] ∧
    periodic_task_callback k sim ⟨game, false, last, cb⟩ time =
      (⟨game, false, last, cb⟩,
       [Call.game_get_state,
        Call.game_get_score, Call.SetScore (sim.game_get_score game),
        Call.game_get_score, Call.MarkScore GameScoreType.GAME_TETRIS (sim.game_get_score game),
        Call.change_app AppRef.show_score_app]) ∧
    (periodic_task_callback k sim ⟨game, false, last, cb⟩ time).2.filter
        (fun c => c.isTransmit || c.isMarkScore || c.isFocusChange) =
      [Call.MarkScore GameScoreType.GAME_TETRIS (sim.game_get_score game),
       Call.change_app AppRef.show_score_app] := by
  simp [periodic_task_callback, hs, Call.isTransmit, Call.isMarkScore, Call.isFocusChange]

/-- C9 at a concrete input: game over with score 1200, multiplayer. -/
theorem periodic_game_over_witness :
    ledgerGame.game_get_state (ledgerIn GameState.GAME_STATE_GAME_OVER 1200 12) =
      GameState.GAME_STATE_GAME_OVER ∧
    (periodic_task_callback sampleConsts ledgerGame
        ⟨ledgerIn GameState.GAME_STATE_GAME_OVER 1200 12, true, 0, true⟩ 77).2.filter
        (fun c => c.isTransmit || c.isMarkScore || c.isFocusChange) =
      [Call.QueueDataForTx [3] 1 RecvId.TETRIS_RECV_ID, Call.SendPartialData 50,
       Call.MarkScore GameScoreType.GAME_TETRIS 1200, Call.change_app AppRef.show_score_app] :=
  ⟨by decide,
   (periodic_game_over sampleConsts ledgerGame
     (ledgerIn GameState.GAME_STATE_GAME_OVER 1200 12) 0 77 true (by decide)).2.1⟩

/-- C10: for `BUTTON_BACK` and `BUTTON_LONG_BACK`, in the waiting and in the
playing state, `OnButton` in multiplayer mode makes the state query, one
enqueue of the single byte `PACKET_ABORT_GAME` for `TETRIS_RECV_ID`, and then
`BackToMenu(this)`; in singleplayer mode the state query and
`BackToMenu(this)` only.  The controller state, the simulation included, is
not changed. -/
theorem OnButton_back {G : Type} (k : Consts) (sim : TetrisGame G) (game : G) (last : Nat)
    (cb : Bool) (button : button_t)
    (hb : button = button_t.BUTTON_BACK ∨ button = button_t.BUTTON_LONG_BACK)
    (hs : sim.game_get_state game = GameState.GAME_STATE_WAITING ∨
          sim.game_get_state game = GameState.GAME_STATE_PLAYING) :
    OnButton k sim ⟨game, true, last, cb⟩ button =
      (⟨game, true, last, cb⟩,
       [Call.game_get_state,
        Call.QueueDataForTx [k.PACKET_ABORT_GAME] 1 RecvId.TETRIS_RECV_ID,
        Call.BackToMenu AppRef.tetris_app]) ∧
    OnButton k sim ⟨game, false, last, cb⟩ button =
      (⟨game, false, last, cb⟩, [Call.game_get_state, Call.BackToMenu AppRef.tetris_app]) := by
  unfold OnButton
  rcases hb with hb | hb <;> rcases hs with hs | hs <;> simp [hb, hs, queueIfMultiplayer]

/-- C10 at a concrete input: long press of BACK while playing, multiplayer. -/
theorem OnButton_back_witness :
    OnButton sampleConsts ledgerGame ⟨ledgerIn GameState.GAME_STATE_PLAYING 0 3, true, 9, true⟩
        button_t.BUTTON_LONG_BACK =
      (⟨ledgerIn GameState.GAME_STATE_PLAYING 0 3, true, 9, true⟩,
       [Call.game_get_state, Call.QueueDataForTx [4] 1 RecvId.TETRIS_RECV_ID,
        Call.BackToMenu AppRef.tetris_app]) :=
  (OnButton_back sampleConsts ledgerGame (ledgerIn GameState.GAME_STATE_PLAYING 0 3) 9 true
    button_t.BUTTON_LONG_BACK (Or.inr rfl) (Or.inr (by decide))).1

/-! ## Consequence of the wrapped threshold -/

/-- With the sample constants, 51 cleared lines and 1000 ticks since the
last fall, the periodic task does not call `game_fall_down_tetromino`. -/
theorem periodic_playing_no_fall_at_51 :
    periodic_task_callback sampleConsts ledgerGame
        ⟨ledgerIn GameState.GAME_STATE_PLAYING 0 51, false, 0, false⟩ 1000 =
      (⟨ledgerIn GameState.GAME_STATE_PLAYING 0 51, false, 0, false⟩,
       [Call.game_get_state, Call.GetTime, Call.game_get_cleared_lines,
        Call.game_draw_to_display 8,
        Call.display_set_mode_fixed_packed [0, 0, 0, 0, 0, 0, 0, 0]]) := by
  decide

/-! ## Inbound packets without payload -/

/-- C11: for every controller state (any simulation state, either mode) and
every packet whose first byte is `PACKET_GAME_START`, `OnXboardRecv` makes
exactly one call, `game_start_playing`, and replaces the simulation by its
result. -/
theorem OnXboardRecv_game_start {G : Type} (k : Consts) (sim : TetrisGame G)
    (app : TetrisApp G) (packet : PacketCallbackArg)
    (hop : packet.dataAt 0 = k.PACKET_GAME_START) :
    OnXboardRecv k sim app packet =
      ({ app with game := sim.game_start_playing app.game }, [Call.game_start_playing]) := by
  simp [OnXboardRecv, hop]

/-- C11 at a concrete input: a start packet while the local game is over,
singleplayer. -/
theorem OnXboardRecv_game_start_witness :
    PacketCallbackArg.dataAt ⟨[1], 1⟩ 0 = sampleConsts.PACKET_GAME_START ∧
    OnXboardRecv sampleConsts ledgerGame
        ⟨ledgerIn GameState.GAME_STATE_GAME_OVER 300 5, false, 0, false⟩ ⟨[1], 1⟩ =
      (⟨ledgerGame.game_start_playing (ledgerIn GameState.GAME_STATE_GAME_OVER 300 5),
        false, 0, false⟩,
       [Call.game_start_playing]) :=
  ⟨by decide,
   OnXboardRecv_game_start sampleConsts ledgerGame
     ⟨ledgerIn GameState.GAME_STATE_GAME_OVER 300 5, false, 0, false⟩ ⟨[1], 1⟩ (by decide)⟩

/-- C12: for every controller state and every packet whose first byte is
`PACKET_GAME_OVER`, `OnXboardRecv` calls, in this order, `game_force_over`,
`SetScore`, `MarkScore(GAME_TETRIS, score)` and `change_app(show_score_app)`,
where the score is read from the simulation after the force-over; the call
list holds no transmission. -/
theorem OnXboardRecv_game_over {G : Type} (k : Consts) (sim : TetrisGame G)
    (app : TetrisApp G) (packet : PacketCallbackArg)
    (hop : packet.dataAt 0 = k.PACKET_GAME_OVER)
    (h1 : k.PACKET_GAME_START ≠ k.PACKET_GAME_OVER)
    (h2 : k.PACKET_ATTACK ≠ k.PACKET_GAME_OVER) :
    OnXboardRecv k sim app packet =
      ({ app with game := sim.game_force_over app.game },
       [Call.game_force_over,
        Call.game_get_score, Call.SetScore (sim.game_get_score (sim.game_force_over app.game)),
        Call.game_get_score,
        Call.MarkScore GameScoreType.GAME_TETRIS
          (sim.game_get_score (sim.game_force_over app.game)),
        Call.change_app AppRef.show_score_app]) ∧
    (OnXboardRecv k sim app packet).2.filter
        (fun c => c.isGameMutation || c.isMarkScore || c.isFocusChange) =
      [Call.game_force_over,
       Call.MarkScore GameScoreType.GAME_TETRIS
         (sim.game_get_score (sim.game_force_over app.game)),
       Call.change_app AppRef.show_score_app] ∧
    (OnXboardRecv k sim app packet).2.filter Call.isTransmit = [] := by
  simp [OnXboardRecv, hop, Ne.symm h1, Ne.symm h2, Call.isGameMutation, Call.isMarkScore,
    Call.isFocusChange, Call.isTransmit]

/-- C12 at a concrete input: a game-over packet while playing with score
700. -/
theorem OnXboardRecv_game_over_witness :
    (OnXboardRecv sampleConsts ledgerGame
        ⟨ledgerIn GameState.GAME_STATE_PLAYING 700 9, true, 0, true⟩ ⟨[3], 1⟩).2.filter
        (fun c => c.isGameMutation || c.isMarkScore || c.isFocusChange) =
      [Call.game_force_over, Call.MarkScore GameScoreType.GAME_TETRIS 700,
       Call.change_app AppRef.show_score_app] :=
  (OnXboardRecv_game_over sampleConsts ledgerGame
    ⟨ledgerIn GameState.GAME_STATE_PLAYING 700 9, true, 0, true⟩ ⟨[3], 1⟩
    (by decide) (by decide) (by decide)).2.1

/-- C13: for every controller state and every packet whose first byte is
`PACKET_ABORT_GAME`, `OnXboardRecv` makes exactly one call,
`BackToMenu(this)`, and leaves the controller state, the simulation
included, as it was. -/
theorem OnXboardRecv_abort_game {G : Type} (k : Consts) (sim : TetrisGame G)
    (app : TetrisApp G) (packet : PacketCallbackArg)
    (hop : packet.dataAt 0 = k.PACKET_ABORT_GAME)
    (h1 : k.PACKET_GAME_START ≠ k.PACKET_ABORT_GAME)
    (h2 : k.PACKET_ATTACK ≠ k.PACKET_ABORT_GAME)
    (h3 : k.PACKET_GAME_OVER ≠ k.PACKET_ABORT_GAME) :
    OnXboardRecv k sim app packet = (app, [Call.BackToMenu AppRef.tetris_app]) := by
  simp [OnXboardRecv, hop, Ne.symm h1, Ne.symm h2, Ne.symm h3]

/-- C13 at a concrete input: an abort packet while playing, singleplayer. -/
theorem OnXboardRecv_abort_game_witness :
    OnXboardRecv sampleConsts ledgerGame
        ⟨ledgerIn GameState.GAME_STATE_PLAYING 0 0, false, 3, false⟩ ⟨[4], 1⟩ =
      (⟨ledgerIn GameState.GAME_STATE_PLAYING 0 0, false, 3, false⟩,
       [Call.BackToMenu AppRef.tetris_app]) :=
  OnXboardRecv_abort_game sampleConsts ledgerGame
    ⟨ledgerIn GameState.GAME_STATE_PLAYING 0 0, false, 3, false⟩ ⟨[4], 1⟩
    (by decide) (by decide) (by decide) (by decide)

/-- C15: a packet whose first byte is none of the four opcodes leaves the
controller state as it was and makes no call. -/
theorem OnXboardRecv_unknown_opcode {G : Type} (k : Consts) (sim : TetrisGame G)
    (app : TetrisApp G) (packet : PacketCallbackArg)
    (h1 : packet.dataAt 0 ≠ k.PACKET_GAME_START)
    (h2 : packet.dataAt 0 ≠ k.PACKET_ATTACK)
    (h3 : packet.dataAt 0 ≠ k.PACKET_GAME_OVER)
    (h4 : packet.dataAt 0 ≠ k.PACKET_ABORT_GAME) :
    OnXboardRecv k sim app packet = (app, []) := by
  simp [OnXboardRecv, h1, h2, h3, h4]

/-- C15 at a concrete input: first byte 200 with two bytes of payload. -/
theorem OnXboardRecv_unknown_opcode_witness :
    OnXboardRecv sampleConsts ledgerGame
        ⟨ledgerIn GameState.GAME_STATE_PLAYING 0 0, true, 3, true⟩ ⟨[200, 2, 7], 3⟩ =
      (⟨ledgerIn GameState.GAME_STATE_PLAYING 0 0, true, 3, true⟩, []) :=
  OnXboardRecv_unknown_opcode sampleConsts ledgerGame
    ⟨ledgerIn GameState.GAME_STATE_PLAYING 0 0, true, 3, true⟩ ⟨[200, 2, 7], 3⟩
    (by decide) (by decide) (by decide) (by decide)

/-! ## Ignored buttons -/

/-- C16: `OnButton` makes the state query and nothing else, and returns the
controller state as it was, when the simulation is in the game-over state
(any button), when it is waiting and the button is not OK, BACK or LONG_BACK,
and when it is playing and the button is none of LEFT, RIGHT, DOWN, UP, OK,
BACK, LONG_BACK. -/
theorem OnButton_ignored {G : Type} (k : Consts) (sim : TetrisGame G) (app : TetrisApp G)
    (button : button_t)
    (h : sim.game_get_state app.game = GameState.GAME_STATE_GAME_OVER ∨
         (sim.game_get_state app.game = GameState.GAME_STATE_WAITING ∧
           button ≠ button_t.BUTTON_OK ∧ button ≠ button_t.BUTTON_BACK ∧
           button ≠ button_t.BUTTON_LONG_BACK) ∨
         (sim.game_get_state app.game = GameState.GAME_STATE_PLAYING ∧
           button ≠ button_t.BUTTON_LEFT ∧ button ≠ button_t.BUTTON_RIGHT ∧
           button ≠ button_t.BUTTON_DOWN ∧ button ≠ button_t.BUTTON_UP ∧
           button ≠ button_t.BUTTON_OK ∧ button ≠ button_t.BUTTON_BACK ∧
           button ≠ button_t.BUTTON_LONG_BACK)) :
    OnButton k sim app button = (app, [Call.game_get_state]) := by
  unfold OnButton
  rcases h with hs | ⟨hs, h1, h2, h3⟩ | ⟨hs, h1, h2, h3, h4, h5, h6, h7⟩
  · simp [hs]
  · cases button <;> simp_all
  · cases button <;> simp_all

/-- C16 at a concrete input: button LEFT on the waiting screen. -/
theorem OnButton_ignored_witness :
    OnButton sampleConsts ledgerGame ⟨ledgerGame.construct, true, 0, true⟩ button_t.BUTTON_LEFT =
      (⟨ledgerGame.construct, true, 0, true⟩, [Call.game_get_state]) :=
  OnButton_ignored sampleConsts ledgerGame ⟨ledgerGame.construct, true, 0, true⟩
    button_t.BUTTON_LEFT (Or.inr (Or.inl (by decide)))

/-! ## The session mode -/

theorem OnButton_multiplayer {G : Type} (k : Consts) (sim : TetrisGame G) (app : TetrisApp G)
    (button : button_t) : (OnButton k sim app button).1.multiplayer = app.multiplayer := by
  unfold OnButton
  cases sim.game_get_state app.game <;> cases button <;> rfl

theorem OnButton_callback {G : Type} (k : Consts) (sim : TetrisGame G) (app : TetrisApp G)
    (button : button_t) :
    (OnButton k sim app button).1.attack_enemy_callback = app.attack_enemy_callback := by
  unfold OnButton
  cases sim.game_get_state app.game <;> cases button <;> rfl

/-- In singleplayer mode the transmissions in the call list of `OnButton` are
those made through the attack callback. -/
theorem OnButton_transmit {G : Type} (k : Consts) (sim : TetrisGame G) (app : TetrisApp G)
    (button : button_t) (hm : app.multiplayer = false) :
    ∃ ns : List Int, (OnButton k sim app button).2.filter Call.isTransmit =
      attack_callback_calls k app.attack_enemy_callback ns := by
  have hin : ∀ d : Direction,
      ([Call.game_get_state, Call.game_on_input d] ++
        attack_callback_calls k app.attack_enemy_callback
          (sim.game_on_input app.game d).2).filter Call.isTransmit =
      attack_callback_calls k app.attack_enemy_callback (sim.game_on_input app.game d).2 := by
    intro d
    rw [List.filter_append, attack_callback_calls_filter_isTransmit]
    rfl
  unfold OnButton
  cases sim.game_get_state app.game
  · refine ⟨[], ?_⟩
    cases button <;> simp [hm, queueIfMultiplayer, Call.isTransmit, attack_callback_calls]
  · exact ⟨[], by simp [Call.isTransmit, attack_callback_calls]⟩
  · cases button with
    | BUTTON_OK => exact ⟨_, hin Direction.DIRECTION_FAST_DOWN⟩
    | BUTTON_LEFT => exact ⟨_, hin Direction.DIRECTION_UP⟩
    | BUTTON_RIGHT => exact ⟨_, hin Direction.DIRECTION_DOWN⟩
    | BUTTON_DOWN => exact ⟨_, hin Direction.DIRECTION_LEFT⟩
    | BUTTON_UP => exact ⟨_, hin Direction.DIRECTION_RIGHT⟩
    | BUTTON_BACK =>
      exact ⟨[], by simp [hm, queueIfMultiplayer, Call.isTransmit, attack_callback_calls]⟩
    | BUTTON_LONG_BACK =>
      exact ⟨[], by simp [hm, queueIfMultiplayer, Call.isTransmit, attack_callback_calls]⟩
    | other code => exact ⟨[], by simp [Call.isTransmit, attack_callback_calls]⟩

theorem OnXboardRecv_multiplayer {G : Type} (k : Consts) (sim : TetrisGame G)
    (app : TetrisApp G) (packet : PacketCallbackArg) :
    (OnXboardRecv k sim app packet).1.multiplayer = app.multiplayer := by
  unfold OnXboardRecv RecvAttackPacket
  dsimp only
  split_ifs <;> rfl

theorem OnXboardRecv_no_transmit {G : Type} (k : Consts) (sim : TetrisGame G)
    (app : TetrisApp G) (packet : PacketCallbackArg) :
    (OnXboardRecv k sim app packet).2.filter Call.isTransmit = [] := by
  unfold OnXboardRecv RecvAttackPacket
  dsimp only
  split_ifs <;> simp [Call.isTransmit]

theorem periodic_multiplayer {G : Type} (k : Consts) (sim : TetrisGame G) (app : TetrisApp G)
    (time : Nat) : (periodic_task_callback k sim app time).1.multiplayer = app.multiplayer := by
  unfold periodic_task_callback
  cases sim.game_get_state app.game <;> rfl

theorem OnXboardRecv_callback {G : Type} (k : Consts) (sim : TetrisGame G)
    (app : TetrisApp G) (packet : PacketCallbackArg) :
    (OnXboardRecv k sim app packet).1.attack_enemy_callback = app.attack_enemy_callback := by
  unfold OnXboardRecv RecvAttackPacket
  dsimp only
  split_ifs <;> rfl

theorem periodic_callback {G : Type} (k : Consts) (sim : TetrisGame G) (app : TetrisApp G)
    (time : Nat) :
    (periodic_task_callback k sim app time).1.attack_enemy_callback =
      app.attack_enemy_callback := by
  unfold periodic_task_callback
  cases sim.game_get_state app.game <;> rfl

/-- In singleplayer mode the transmissions in the call list of the periodic
task are those made through the attack callback. -/
theorem periodic_transmit {G : Type} (k : Consts) (sim : TetrisGame G) (app : TetrisApp G)
    (time : Nat) (hm : app.multiplayer = false) :
    ∃ ns : List Int, (periodic_task_callback k sim app time).2.filter Call.isTransmit =
      attack_callback_calls k app.attack_enemy_callback ns := by
  unfold periodic_task_callback
  cases sim.game_get_state app.game
  · exact ⟨[], by simp [Call.isTransmit, attack_callback_calls]⟩
  · exact ⟨[], by simp [hm, Call.isTransmit, attack_callback_calls]⟩
  · simp only []
    split
    · refine ⟨(sim.game_fall_down_tetromino app.game).2, ?_⟩
      simp only [List.filter_append, attack_callback_calls_filter_isTransmit]
      simp [Call.isTransmit]
    · exact ⟨[], by simp [Call.isTransmit, attack_callback_calls]⟩

theorem OnEntry_no_transmit {G : Type} (sim : TetrisGame G) (app : TetrisApp G) :
    (OnEntry sim app).2.filter Call.isTransmit = [] := by
  unfold OnEntry
  cases app.multiplayer <;> simp [Call.isTransmit]

theorem dispatch_multiplayer {G : Type} (k : Consts) (sim : TetrisGame G) (app : TetrisApp G)
    (e : Event) : (dispatch k sim app e).1.multiplayer = app.multiplayer := by
  cases e with
  | OnEntry => rfl
  | OnExit => rfl
  | OnButton button => exact OnButton_multiplayer k sim app button
  | OnXboardRecv packet => exact OnXboardRecv_multiplayer k sim app packet
  | periodic_task_callback time => exact periodic_multiplayer k sim app time

/-- In singleplayer mode the transmissions in the call list of any event are
those made through the attack callback. -/
theorem dispatch_transmit {G : Type} (k : Consts) (sim : TetrisGame G) (app : TetrisApp G)
    (e : Event) (hm : app.multiplayer = false) :
    ∃ ns : List Int, (dispatch k sim app e).2.filter Call.isTransmit =
      attack_callback_calls k app.attack_enemy_callback ns := by
  cases e with
  | OnEntry => exact ⟨[], OnEntry_no_transmit sim app⟩
  | OnExit => exact ⟨[], by simp [dispatch, OnExit, Call.isTransmit, attack_callback_calls]⟩
  | OnButton button => exact OnButton_transmit k sim app button hm
  | OnXboardRecv packet =>
    exact ⟨[], by
      simp only [dispatch, attack_callback_calls]
      exact OnXboardRecv_no_transmit k sim app packet⟩
  | periodic_task_callback time => exact periodic_transmit k sim app time hm

theorem dispatch_no_transmit {G : Type} (k : Consts) (sim : TetrisGame G) (app : TetrisApp G)
    (e : Event) (hm : app.multiplayer = false) (hc : app.attack_enemy_callback = false) :
    (dispatch k sim app e).2.filter Call.isTransmit = [] := by
  obtain ⟨ns, h⟩ := dispatch_transmit k sim app e hm
  rw [h, hc, attack_callback_calls_false]

/-- In singleplayer mode no event registers the attack callback, and `OnEntry`
clears the slot. -/
theorem dispatch_callback {G : Type} (k : Consts) (sim : TetrisGame G) (app : TetrisApp G)
    (e : Event) (hm : app.multiplayer = false)
    (hc : e = Event.OnEntry ∨ app.attack_enemy_callback = false) :
    (dispatch k sim app e).1.attack_enemy_callback = false := by
  cases e with
  | OnEntry => exact hm
  | OnExit => simpa [dispatch, OnExit] using hc
  | OnButton button =>
    have := OnButton_callback k sim app button
    simp only [dispatch]
    rw [this]; simpa using hc
  | OnXboardRecv packet =>
    have := OnXboardRecv_callback k sim app packet
    simp only [dispatch]
    rw [this]; simpa using hc
  | periodic_task_callback time =>
    have := periodic_callback k sim app time
    simp only [dispatch]
    rw [this]; simpa using hc

theorem run_no_transmit {G : Type} (k : Consts) (sim : TetrisGame G) (evs : List Event) :
    ∀ app : TetrisApp G, app.multiplayer = false → app.attack_enemy_callback = false →
      (run k sim app evs).2.filter Call.isTransmit = [] ∧
      (run k sim app evs).1.multiplayer = false ∧
      (run k sim app evs).1.attack_enemy_callback = false := by
  induction evs with
  | nil => intro app hm hc; exact ⟨rfl, hm, hc⟩
  | cons e es ih =>
    intro app hm hc
    have hm1 : (dispatch k sim app e).1.multiplayer = false := by
      rw [dispatch_multiplayer]; exact hm
    have hc1 := dispatch_callback k sim app e hm (Or.inr hc)
    have h := ih (dispatch k sim app e).1 hm1 hc1
    refine ⟨?_, h.2⟩
    simp only [run, List.filter_append, dispatch_no_transmit k sim app e hm hc, h.1,
      List.append_nil]

/-- A run that starts with `OnEntry` in singleplayer mode, whatever callback
was registered before. -/
theorem run_after_OnEntry_no_transmit {G : Type} (k : Consts) (sim : TetrisGame G)
    (app : TetrisApp G) (evs : List Event) (hm : app.multiplayer = false) :
    (run k sim app (Event.OnEntry :: evs)).2.filter Call.isTransmit = [] ∧
    (run k sim app (Event.OnEntry :: evs)).1.multiplayer = false ∧
    (run k sim app (Event.OnEntry :: evs)).1.attack_enemy_callback = false := by
  have hm1 : (dispatch k sim app Event.OnEntry).1.multiplayer = false := by
    rw [dispatch_multiplayer]; exact hm
  have hc1 := dispatch_callback k sim app Event.OnEntry hm (Or.inl rfl)
  have h := run_no_transmit k sim evs (dispatch k sim app Event.OnEntry).1 hm1 hc1
  refine ⟨?_, h.2⟩
  have h0 : (dispatch k sim app Event.OnEntry).2.filter Call.isTransmit = [] :=
    OnEntry_no_transmit sim app
  simp only [run, List.filter_append, h0, h.1, List.append_nil]

theorem Call.enqueuedBytes_zero_of_not_transmit (c : Call) (h : c.isTransmit = false) :
    c.enqueuedBytes = 0 := by
  cases c <;> first | rfl | simp [Call.isTransmit] at h

theorem enqueuedBytes_eq_zero (calls : List Call) (h : calls.filter Call.isTransmit = []) :
    enqueuedBytes calls = 0 := by
  rw [List.filter_eq_nil_iff] at h
  unfold enqueuedBytes
  apply List.sum_eq_zero
  intro x hx
  rw [List.mem_map] at hx
  obtain ⟨c, hc, rfl⟩ := hx
  exact Call.enqueuedBytes_zero_of_not_transmit c (by simpa using h c hc)

/-- C19: in singleplayer mode the only transmissions any event can put in
the call list are those made through a registered attack callback, so with no
callback registered no event makes the controller transmit, and none changes
`multiplayer` or registers a callback; `OnEntry` does not register the
attack-sending callback with the fresh simulation and leaves the slot empty;
and over every sequence of events that starts with `OnEntry`, whatever was
registered before, the call list holds no `QueueDataForTx` and no
`SendPartialData`, the number of enqueued bytes is zero and the controller is
still in singleplayer mode. -/
theorem singleplayer_never_transmits {G : Type} (k : Consts) (sim : TetrisGame G) (game : G)
    (last : Nat) (cb : Bool) (evs : List Event) :
    (∀ e : Event, ∃ ns : List Int,
      (dispatch k sim ⟨game, false, last, cb⟩ e).2.filter Call.isTransmit =
        attack_callback_calls k cb ns) ∧
    (∀ e : Event,
      (dispatch k sim ⟨game, false, last, false⟩ e).2.filter Call.isTransmit = [] ∧
      (dispatch k sim ⟨game, false, last, false⟩ e).1.multiplayer = false ∧
      (dispatch k sim ⟨game, false, last, false⟩ e).1.attack_enemy_callback = false) ∧
    (OnEntry sim ⟨game, false, last, cb⟩).2.count Call.game_register_attack_enemy_callback = 0 ∧
    (OnEntry sim ⟨game, false, last, cb⟩).1.game = sim.construct ∧
    (OnEntry sim ⟨game, false, last, cb⟩).1.attack_enemy_callback = false ∧
    (run k sim ⟨game, false, last, cb⟩ (Event.OnEntry :: evs)).2.filter Call.isTransmit = [] ∧
    enqueuedBytes (run k sim ⟨game, false, last, cb⟩ (Event.OnEntry :: evs)).2 = 0 ∧
    (run k sim ⟨game, false, last, cb⟩ (Event.OnEntry :: evs)).1.multiplayer = false := by
  have hrun := run_after_OnEntry_no_transmit k sim ⟨game, false, last, cb⟩ evs rfl
  refine ⟨fun e => dispatch_transmit k sim _ e rfl,
    fun e => ⟨dispatch_no_transmit k sim _ e rfl rfl, ?_,
      dispatch_callback k sim _ e rfl (Or.inr rfl)⟩,
    ?_, rfl, rfl, hrun.1, enqueuedBytes_eq_zero _ hrun.1, hrun.2.1⟩
  · rw [dispatch_multiplayer]
  · simp [OnEntry, List.count_cons]

/-! ## What the session mode does not govern -/

/-- C14, the claim as stated fails: a start packet of length 3 starts the
simulation, a game-over packet of length 2 ends it, records the score and
moves the focus, and an abort packet of length 2 asks for the menu. -/
theorem OnXboardRecv_wrong_length_handled :
    OnXboardRecv sampleConsts ledgerGame ⟨ledgerGame.construct, true, 0, true⟩ ⟨[1, 0, 0], 3⟩ =
      (⟨ledgerIn GameState.GAME_STATE_PLAYING 0 0, true, 0, true⟩, [Call.game_start_playing]) ∧
    OnXboardRecv sampleConsts ledgerGame
        ⟨ledgerIn GameState.GAME_STATE_PLAYING 500 0, true, 0, true⟩ ⟨[3, 0], 2⟩ =
      (⟨ledgerIn GameState.GAME_STATE_GAME_OVER 500 0, true, 0, true⟩,
       [Call.game_force_over, Call.game_get_score, Call.SetScore 500, Call.game_get_score,
        Call.MarkScore GameScoreType.GAME_TETRIS 500, Call.change_app AppRef.show_score_app]) ∧
    OnXboardRecv sampleConsts ledgerGame
        ⟨ledgerIn GameState.GAME_STATE_PLAYING 0 0, true, 0, true⟩ ⟨[4, 0], 2⟩ =
      (⟨ledgerIn GameState.GAME_STATE_PLAYING 0 0, true, 0, true⟩,
       [Call.BackToMenu AppRef.tetris_app]) := by
  decide

/-- C14 as amended: an attack packet whose length field is not 2 is dropped
(controller state unchanged, no call); for every packet whose first byte is
not `PACKET_ATTACK`, so for the three opcodes without payload, the length
field is not read: the result is the same for every value of it. -/
theorem OnXboardRecv_length_only_for_attack {G : Type} (k : Consts) (sim : TetrisGame G)
    (app : TetrisApp G) (packet : PacketCallbackArg)
    (hd : k.PACKET_GAME_START ≠ k.PACKET_ATTACK) :
    (packet.dataAt 0 = k.PACKET_ATTACK → packet.len ≠ 2 →
      OnXboardRecv k sim app packet = (app, [])) ∧
    (packet.dataAt 0 ≠ k.PACKET_ATTACK → ∀ len : Nat,
      OnXboardRecv k sim app ⟨packet.data, len⟩ = OnXboardRecv k sim app packet) := by
  constructor
  · intro hop hlen
    simp [OnXboardRecv, RecvAttackPacket, hop, hlen, Ne.symm hd]
  · intro hop len
    have hop2 : PacketCallbackArg.dataAt ⟨packet.data, len⟩ 0 ≠ k.PACKET_ATTACK := hop
    have e : PacketCallbackArg.dataAt ⟨packet.data, len⟩ 0 = packet.dataAt 0 := rfl
    simp [OnXboardRecv, hop, hop2, e]

/-- C14 as amended, at a concrete input: an attack packet of length 1 is
dropped. -/
theorem OnXboardRecv_length_only_for_attack_witness :
    OnXboardRecv sampleConsts ledgerGame
        ⟨ledgerIn GameState.GAME_STATE_PLAYING 0 0, true, 0, true⟩ ⟨[2], 1⟩ =
      (⟨ledgerIn GameState.GAME_STATE_PLAYING 0 0, true, 0, true⟩, []) :=
  (OnXboardRecv_length_only_for_attack sampleConsts ledgerGame
    ⟨ledgerIn GameState.GAME_STATE_PLAYING 0 0, true, 0, true⟩ ⟨[2], 1⟩ (by decide)).1
    (by decide) (by decide)

/-! ## The periodic task: waiting and rendering -/

/-- C20: for every `int n`, `SendAttackEnemyPacket(n)` makes one
`QueueDataForTx` call, of two bytes and length 2; the packet the transport
delivers from it is accepted by the peer's `OnXboardRecv`, whose only call is
`game_enemy_attack(n mod 256)`; for `0 <= n <= 255` that is
`game_enemy_attack(n)`. -/
theorem attack_round_trip {G : Type} (k : Consts) (sim : TetrisGame G) (peer : TetrisApp G)
    (n : Int) (hd : k.PACKET_GAME_START ≠ k.PACKET_ATTACK) :
    SendAttackEnemyPacket k n =
      [Call.QueueDataForTx [k.PACKET_ATTACK, toUint8 n] 2 RecvId.TETRIS_RECV_ID] ∧
    (SendAttackEnemyPacket k n).filterMap Call.delivered =
      [⟨[k.PACKET_ATTACK, toUint8 n], 2⟩] ∧
    OnXboardRecv k sim peer ⟨[k.PACKET_ATTACK, toUint8 n], 2⟩ =
      ({ peer with game := sim.game_enemy_attack peer.game (n % 256) },
       [Call.game_enemy_attack (n % 256)]) ∧
    (0 ≤ n → n ≤ 255 →
      OnXboardRecv k sim peer ⟨[k.PACKET_ATTACK, toUint8 n], 2⟩ =
        ({ peer with game := sim.game_enemy_attack peer.game n },
         [Call.game_enemy_attack n])) := by
  have hv : ((toUint8 n).val : Int) = n % 256 := by
    unfold toUint8
    simp only []
    omega
  have hrecv : OnXboardRecv k sim peer ⟨[k.PACKET_ATTACK, toUint8 n], 2⟩ =
      ({ peer with game := sim.game_enemy_attack peer.game (n % 256) },
       [Call.game_enemy_attack (n % 256)]) := by
    simp [OnXboardRecv, RecvAttackPacket, PacketCallbackArg.dataAt, Ne.symm hd, hv]
  refine ⟨rfl, rfl, hrecv, ?_⟩
  intro h0 h1
  have hn : n % 256 = n := by omega
  rw [hrecv, hn]

/-- C20 at a concrete input: 300 lines arrive as 44. -/
theorem attack_round_trip_witness :
    OnXboardRecv sampleConsts ledgerGame ⟨ledgerIn GameState.GAME_STATE_PLAYING 0 0, true, 0, true⟩
        ⟨[sampleConsts.PACKET_ATTACK, toUint8 300], 2⟩ =
      (⟨ledgerGame.game_enemy_attack (ledgerIn GameState.GAME_STATE_PLAYING 0 0) (300 % 256),
        true, 0, true⟩,
       [Call.game_enemy_attack (300 % 256)]) :=
  (attack_round_trip sampleConsts ledgerGame ⟨ledgerIn GameState.GAME_STATE_PLAYING 0 0, true, 0, true⟩
    300 (by decide)).2.2.1

end tetris
end app
end hitcon
